/-
Verification of the affective-state and memory-lifecycle engine of the
Dang-Dang-Ai companion bot.

The Lean definitions below are a shallow embedding of the Python source:

* `src/core/growth_manager.py`  — `GrowthManager.process_interaction` and its
  helpers (XP/level/trust state machine with time-gated level-ups);
* `src/memory.py`               — `MemoryManager.update_bot_state`,
  `get_memories_by_context`, `get_important_memories`;
* `src/cognition.py`            — the mood-update arithmetic that feeds
  `update_bot_state` (lines 90-98);
* `src/core/memory_decay.py`    — `MemoryDecayer.run_decay_cycle` and
  `reinforce_memory`;
* `src/core/session_manager.py` — `SessionManager.should_start_new_session`.

Modelling conventions: the PostgreSQL store is a record of Lean lists/records;
an SQL `UPDATE ... WHERE p` is a row-wise `List.map` guarded by `p`; `SELECT ...
ORDER BY k LIMIT n` is a deterministic sort by `k` followed by `List.take n`
(the SQL order is unspecified on ties; the theorems proved below do not depend
on tie order).  Python floats that only ever hold small decimal constants and
their sums are modelled as `ℚ`; timestamps are seconds since an epoch (`Nat`),
calendar dates are day indices (`Nat`, a timestamp's date is `t / 86400`).
Fallible storage calls (`execute_query` re-raises on error, see
`src/db_connection.py` lines 135-148) are modelled by an explicit failure
specification: a raised exception inside `process_interaction`'s outer `try`
makes it return `{}`, modelled as `none`.
-/
import Mathlib

namespace DangDang

/-! ### Growth engine data model (src/core/growth_manager.py, migration v3_0) -/

/-- One row of `relationship_state` (the fields `process_interaction` touches;
migration `v3_0_soul_update.py` lines 44-60).  `last_interaction_date` is a
calendar-day index. -/
structure RelState where
  level : Nat
  current_xp : Int
  total_xp : Int
  trust_score : ℚ
  days_active : Nat
  last_interaction_date : Nat
  deriving Repr, DecidableEq

/-- One row of `core_memories` as inserted by `process_interaction`
(growth_manager.py lines 69-72). -/
structure CoreMemoryRow where
  content : String
  memory_type : String
  emotional_impact : Int
  related_level : Nat
  deriving Repr, DecidableEq

/-- The slice of the database that the growth engine reads and writes. -/
structure GrowthDB where
  rel : RelState
  core_memories : List CoreMemoryRow
  deriving Repr, DecidableEq

/-- The Judge verdict consumed by `process_interaction` (growth_manager.py
lines 53-57; produced externally by `SentimentArbiter.judge_interaction`). -/
structure Judgment where
  xp_change : Int
  sentiment : String
  is_core_memory : Bool
  memory_type : String
  reason : String
  deriving Repr, DecidableEq

/-- The result dict of `process_interaction` (growth_manager.py lines 116-122).
The Python `{}` returned from the `except` handler is modelled as `none` at
the call site, so `GrowthResult` always carries all five documented keys. -/
structure GrowthResult where
  xp_gained : Int
  level_up : Bool
  current_level : Nat
  sentiment : String
  trust_change : ℚ
  deriving Repr, DecidableEq

/-- Which storage calls in `process_interaction`'s outer `try` raise.
`execute_query` re-raises query errors (db_connection.py lines 146-148), so a
raised flag aborts the method into its `except` handler.  The `INSERT` into
`core_memories` needs no flag: its surrounding block raises before the query
is issued (see `coreInsertRaises`) and has its own inner handler. -/
structure FailSpec where
  failDaysRead : Bool
  failDaysUpdate : Bool
  failStateRead : Bool
  failFinalUpdate : Bool
  deriving Repr, DecidableEq

/-- No storage call fails. -/
def noFail : FailSpec := ⟨false, false, false, false⟩

/-- growth_manager.py lines 60-64: the `trust_delta` elif chain, with the
initial `trust_delta = 0.0`.  The branch order is exactly the source order:
`>= 5`, then `> 0`, then `< 0`, then `<= -5`. -/
def trustDelta (xp_change : Int) : ℚ :=
  if 5 ≤ xp_change then 2 / 100
  else if 0 < xp_change then 5 / 1000
  else if xp_change < 0 then -(1 / 100)
  else if xp_change ≤ -5 then -(5 / 100)
  else 0

/-- `_get_xp_for_next_level` (growth_manager.py lines 153-158):
`int(self.base_xp * (1.5 ** (level - 1)))` with `base_xp = 100`.  The float
`100 * 1.5 ** k` is exact for every level reachable here, and `int` truncates
toward zero, so the value is `⌊100 * 3^(level-1) / 2^(level-1)⌋`. -/
def xpForNextLevel (level : Nat) : Nat :=
  100 * 3 ^ (level - 1) / 2 ^ (level - 1)

/-- `self.time_gates` (growth_manager.py lines 27-34) read through
`.get(next_level, 0)` (line 93). -/
def timeGates (lvl : Nat) : Nat :=
  if lvl = 1 then 0
  else if lvl = 2 then 0
  else if lvl = 3 then 1
  else if lvl = 4 then 3
  else if lvl = 5 then 7
  else if lvl = 10 then 30
  else 0

/-- `_update_days_active` (growth_manager.py lines 140-151): if `today` is a
later calendar day than the stored `last_interaction_date`, increment
`days_active` and move the date forward. -/
def updateDaysActive (today : Nat) (r : RelState) : RelState :=
  if r.last_interaction_date < today then
    { r with days_active := r.days_active + 1, last_interaction_date := today }
  else r

/-- True when the core-memory block (growth_manager.py lines 67-76) raises.
The block reads `state['level']` at line 72, but the local variable `state`
is first assigned only at line 79, so whenever the block is entered
(`is_core_memory` true) evaluating the parameter tuple raises
`UnboundLocalError` before the `INSERT` is issued; the inner `except` at line
74 swallows it. -/
def coreInsertRaises (j : Judgment) : Bool := j.is_core_memory

/-- `max(0.0, min(1.0, x))` as used for the trust score
(growth_manager.py line 82). -/
def clamp01 (q : ℚ) : ℚ := max 0 (min 1 q)

/-- `GrowthManager.process_interaction` (growth_manager.py lines 36-126),
with the Judge verdict `j` passed in (step 2 is an external call whose
fallback lives in `SentimentArbiter`).  Returns the database after the call
together with `some` result dict, or `none` for the `{}` returned by the
outer `except` handler.  Statements execute in source order:

1. `_update_days_active` (two queries, each may raise);
3. the `trust_delta` chain (pure);
-  the core-memory block: the local `state` is unbound until line 79, so the
   attempted insert raises and is swallowed by the inner handler — the
   `core_memories` table is never written (modelled by matching on the
   unbound local `stateLocal = none`);
4. `state = self.get_state()` (may raise; growth_manager.py lines 128-138 —
   the row always exists after migration, so the read returns `rel`);
5. the level-up check;
-  the final `UPDATE` committing `current_xp`, `total_xp`, `trust_score`,
   `level` (may raise). -/
def process_interaction (today : Nat) (user_content : String) (db : GrowthDB)
    (j : Judgment) (fs : FailSpec) : GrowthDB × Option GrowthResult :=
  if fs.failDaysRead then (db, none)
  else if db.rel.last_interaction_date < today ∧ fs.failDaysUpdate then (db, none)
  else
    let db1 : GrowthDB := { db with rel := updateDaysActive today db.rel }
    let trust_delta := trustDelta j.xp_change
    -- lines 67-76: `state` is referenced before its assignment at line 79
    let stateLocal : Option RelState := none
    let db2 : GrowthDB :=
      if j.is_core_memory then
        match stateLocal with
        | some st =>
          { db1 with core_memories := db1.core_memories ++
              [⟨"USER: " ++ user_content ++ " | REASON: " ++ j.reason,
                j.memory_type, |j.xp_change|, st.level⟩] }
        | none => db1      -- UnboundLocalError, caught by the inner except
      else db1
    if fs.failStateRead then (db2, none)
    else
      let state := db2.rel
      let new_xp := max 0 (state.current_xp + j.xp_change)
      let new_total_xp := state.total_xp + max 0 j.xp_change
      let new_trust := clamp01 (state.trust_score + trust_delta)
      let current_level := state.level
      let xp_needed : Int := xpForNextLevel current_level
      let lvl_res :=
        if xp_needed ≤ new_xp then
          if timeGates (current_level + 1) ≤ state.days_active then
            (current_level + 1, true, new_xp - xp_needed)
          else (current_level, false, new_xp)
        else (current_level, false, new_xp)
      if fs.failFinalUpdate then (db2, none)
      else
        ({ db2 with rel := { state with
             current_xp := lvl_res.2.2, total_xp := new_total_xp,
             trust_score := new_trust, level := lvl_res.1 } },
         some ⟨j.xp_change, lvl_res.2.1, lvl_res.1, j.sentiment, trust_delta⟩)

/-- A sequence of interactions: fold `process_interaction` over a list of
(verdict, failure-specification) pairs, keeping the database. -/
def runInteractions (today : Nat) (user_content : String)
    (l : List (Judgment × FailSpec)) (db : GrowthDB) : GrowthDB :=
  l.foldl (fun d jf => (process_interaction today user_content d jf.1 jf.2).1) db

/-! ### Bot state (src/memory.py lines 209-238, src/cognition.py lines 84-101) -/

/-- The single `bot_state` row (memory.py lines 28-36; `id` is always 1). -/
structure BotState where
  valence : ℚ
  energy : ℚ
  bond : ℚ
  last_reflection : String
  deriving Repr, DecidableEq

/-- `MemoryManager.update_bot_state` (memory.py lines 224-238): writes `v`,
`e`, `b` (and `r`, when given) into the row exactly as passed — the method
performs no clamping of its own. -/
def update_bot_state (s : BotState) (v e b : ℚ) (r : Option String) : BotState :=
  match r with
  | some t => { valence := v, energy := e, bond := b, last_reflection := t }
  | none => { s with valence := v, energy := e, bond := b }

/-- The mood-update arithmetic of `CognitionEngine.process_mood_change`
(cognition.py lines 90-98): the caller clamps before invoking
`update_bot_state`:
`new_v = max(-1.0, min(1.0, v + valence_change))`,
`new_e = max(0.0, min(1.0, e + energy_change))`,
`new_b = max(0.0, min(1.0, b + bond_change - scar))`. -/
def process_mood_change (s : BotState) (valence_change energy_change bond_change scar : ℚ) :
    BotState :=
  let new_v := max (-1) (min 1 (s.valence + valence_change))
  let new_e := max 0 (min 1 (s.energy + energy_change))
  let new_b := max 0 (min 1 (s.bond + bond_change - scar))
  update_bot_state s new_v new_e new_b none

/-! ### Episodic memory store (src/memory.py, src/core/memory_decay.py) -/

/-- One row of `episodic_memory` (memory.py lines 58-69 plus the
`decay_locked` column added by migration `v3_1_memory_decay.py`).
`is_core` is `INTEGER DEFAULT 0` written as 0/1 and `decay_locked` is
`BOOLEAN DEFAULT FALSE`, so both are modelled as `Bool` (the `IS NULL`
disjuncts in the decay SQL are absorbed by the column defaults);
`last_accessed` is nullable with no default and stays `NULL` until a
reinforcement, hence `Option Nat`. -/
structure EpisodicRow where
  id : Nat
  content : String
  importance : Int
  emotion_tone : String
  is_core : Bool
  created_at : Nat
  last_accessed : Option Nat
  access_count : Int
  decay_locked : Bool
  deriving Repr, DecidableEq

/-- The row-match predicate of the decay `UPDATE` (memory_decay.py lines
35-43): `last_accessed < NOW() - INTERVAL '7 days'` (`NULL` compares unknown,
so a never-accessed row is not matched), `importance > 1`,
`importance <= 8`, not `decay_locked`, not `is_core`. -/
def decayMatch (now : Nat) (r : EpisodicRow) : Bool :=
  (match r.last_accessed with
   | some t => decide (t + 7 * 86400 < now)
   | none => false)
  && decide (1 < r.importance) && decide (r.importance ≤ 8)
  && !r.decay_locked && !r.is_core

/-- `MemoryDecayer.run_decay_cycle` (memory_decay.py lines 16-54): one
`UPDATE episodic_memory SET importance = importance - 1 WHERE ...`, i.e. a
row-wise map that decrements exactly the rows matched by `decayMatch`. -/
def run_decay_cycle (now : Nat) (store : List EpisodicRow) : List EpisodicRow :=
  store.map fun r =>
    if decayMatch now r then { r with importance := r.importance - 1 } else r

/-- `MemoryDecayer.reinforce_memory` (memory_decay.py lines 56-73):
`UPDATE ... SET last_accessed = NOW(), importance = LEAST(importance + 1, 10),
access_count = access_count + 1 WHERE id = %s`. -/
def reinforce_memory (now : Nat) (mem_id : Nat) (store : List EpisodicRow) :
    List EpisodicRow :=
  store.map fun r =>
    if r.id = mem_id then
      { r with last_accessed := some now,
               importance := min (r.importance + 1) 10,
               access_count := r.access_count + 1 }
    else r

/-- Insert `x` into `l` in front of the first element `y` with `le x y`. -/
def insertLe {α : Type} (le : α → α → Bool) (x : α) : List α → List α
  | [] => [x]
  | y :: ys => if le x y then x :: y :: ys else y :: insertLe le x ys

/-- Insertion sort by `le`; models an SQL `ORDER BY` (deterministically:
among key-equal rows the order is fixed, which the SQL leaves unspecified —
no theorem below depends on tie order). -/
def sortLe {α : Type} (le : α → α → Bool) : List α → List α
  | [] => []
  | x :: xs => insertLe le x (sortLe le xs)

/-- `ORDER BY is_core DESC, importance DESC, id DESC`
(`get_important_memories`, memory.py line 315): `a` sorts no later than `b`. -/
def importantOrder (a b : EpisodicRow) : Bool :=
  if a.is_core ≠ b.is_core then a.is_core
  else if a.importance ≠ b.importance then decide (b.importance < a.importance)
  else decide (b.id ≤ a.id)

/-- `ORDER BY is_core DESC, importance DESC`
(`get_memories_by_context`, memory.py line 293): `a` sorts no later than `b`
(ties resolved deterministically by the sort, unspecified in SQL). -/
def contextOrder (a b : EpisodicRow) : Bool :=
  if a.is_core ≠ b.is_core then a.is_core
  else decide (b.importance ≤ a.importance)

/-- `MemoryManager.get_important_memories` (memory.py lines 310-322):
`SELECT content FROM episodic_memory ORDER BY is_core DESC, importance DESC,
id DESC LIMIT limit`. -/
def get_important_memories (store : List EpisodicRow) (limit : Nat) : List String :=
  ((sortLe importantOrder store).take limit).map (·.content)

/-- Python `context_query.split()`: split on whitespace, then the filter
`len(w) > 3` of memory.py line 282 (which also discards the empty fragments
a bare whitespace split would leave).  Strings are processed as their
character lists so that everything reduces computationally. -/
def keywordsOf (q : String) : List String :=
  ((q.data.splitOnP fun c => c.isWhitespace).map List.asString).filter fun w =>
    3 < w.length

/-- `content ILIKE '%w%'`: case-insensitive substring containment (modelled
with per-character simple lowercasing). -/
def ilikeMatch (content w : String) : Bool :=
  decide (List.IsInfix (w.data.map Char.toLower) (content.data.map Char.toLower))

/-- The `WHERE` disjunction of memory.py line 287: the row's content matches
at least one keyword. -/
def matchesAnyKeyword (kws : List String) (r : EpisodicRow) : Bool :=
  kws.any fun w => ilikeMatch r.content w

/-- `MemoryManager.get_memories_by_context` (memory.py lines 278-308):
keywords are the query's words longer than 3 characters; with no keywords the
call delegates to `get_important_memories(limit)`; otherwise the matching
rows are ranked by `(is_core DESC, importance DESC)` and truncated at
`limit`, and if fewer than 2 rows were found the result is topped up with
`get_important_memories(limit - len(rows))`. -/
def get_memories_by_context (store : List EpisodicRow) (q : String) (limit : Nat) :
    List String :=
  let keywords := keywordsOf q
  if keywords = [] then get_important_memories store limit
  else
    let rows :=
      ((sortLe contextOrder (store.filter (matchesAnyKeyword keywords))).take limit).map
        (·.content)
    if rows.length < 2 then rows ++ get_important_memories store (limit - rows.length)
    else rows

/-- `get_memories_by_context` together with the episodic store after the
call.  The source method issues only `SELECT` statements (memory.py lines
290-296 and 313-317) and never an `UPDATE`, so the store it leaves behind is
the store it was given. -/
def get_memories_by_context_st (store : List EpisodicRow) (q : String) (limit : Nat) :
    List String × List EpisodicRow :=
  (get_memories_by_context store q limit, store)

/-! ### Session boundaries (src/core/session_manager.py lines 45-79) -/

/-- `SessionManager.should_start_new_session`: timestamps are seconds, the
calendar date of `t` is `t / 86400`.  `True` if there is no prior message,
or `now.date() > last.date()`, or the gap is at least 4 hours
(`total_seconds() / 3600 >= 4`, i.e. `now - last ≥ 14400` seconds; for a
`last` in the future the Python gap is negative and the truncated `Nat`
subtraction is 0 — both fail the test). -/
def should_start_new_session (last_message_time : Option Nat) (now : Nat) : Bool :=
  match last_message_time with
  | none => true
  | some t =>
    if t / 86400 < now / 86400 then true
    else if 4 * 3600 ≤ now - t then true
    else false

/-! ### Theorems -/

/-- C1, counterexample: `update_bot_state` does no clamping — calling it with
`v = e = b = 2` persists valence 2 ∉ [-1,1], energy 2 ∉ [0,1] and
bond 2 ∉ [0,1] (the `NUMERIC(3,2)` columns accept any value up to 9.99, so
nothing else blocks the write). -/
theorem updateBotState_no_clamp_counterexample :
    (update_bot_state ⟨1/5, 4/5, 3/10, "x"⟩ 2 2 2 none).valence = 2 ∧
    ¬ (update_bot_state ⟨1/5, 4/5, 3/10, "x"⟩ 2 2 2 none).valence ≤ 1 ∧
    ¬ (update_bot_state ⟨1/5, 4/5, 3/10, "x"⟩ 2 2 2 none).energy ≤ 1 ∧
    ¬ (update_bot_state ⟨1/5, 4/5, 3/10, "x"⟩ 2 2 2 none).bond ≤ 1 := by
  refine ⟨rfl, ?_, ?_, ?_⟩ <;> norm_num [update_bot_state]

/-- C1, amended: `update_bot_state` persists its numeric arguments verbatim,
with no clamping of its own; the stored ranges hold only because the calling
turn path (`process_mood_change`, cognition.py lines 94-98) clamps valence to
[-1,1] and energy/bond to [0,1] before invoking the setter. -/
theorem updateBotState_verbatim_and_caller_clamps :
    (∀ s v e b r, (update_bot_state s v e b r).valence = v ∧
        (update_bot_state s v e b r).energy = e ∧
        (update_bot_state s v e b r).bond = b) ∧
    (∀ s dv de dbd sc,
        -1 ≤ (process_mood_change s dv de dbd sc).valence ∧
        (process_mood_change s dv de dbd sc).valence ≤ 1 ∧
        0 ≤ (process_mood_change s dv de dbd sc).energy ∧
        (process_mood_change s dv de dbd sc).energy ≤ 1 ∧
        0 ≤ (process_mood_change s dv de dbd sc).bond ∧
        (process_mood_change s dv de dbd sc).bond ≤ 1) := by
  constructor
  · intro s v e b r
    cases r <;> exact ⟨rfl, rfl, rfl⟩
  · intro s dv de dbd sc
    simp only [process_mood_change, update_bot_state]
    refine ⟨le_max_left _ _, max_le (by norm_num) (min_le_left _ _),
      le_max_left _ _, max_le (by norm_num) (min_le_left _ _),
      le_max_left _ _, max_le (by norm_num) (min_le_left _ _)⟩

/-- C3: the trust-band mapping as implemented.  The `elif xp_change <= -5`
branch of growth_manager.py line 64 is unreachable, because `xp_change < 0`
at line 63 matches every input the later branch would: `xp_change = -5` and
`-6` yield `-0.01`, and no input at all yields the claimed `-0.05`. -/
theorem trustDelta_harsh_band_unreachable :
    trustDelta (-5) = -(1 / 100) ∧ trustDelta (-6) = -(1 / 100) ∧
    (∀ x : Int, trustDelta x ≠ -(5 / 100)) := by
  refine ⟨by norm_num [trustDelta], by norm_num [trustDelta], fun x => ?_⟩
  unfold trustDelta
  split_ifs with h1 h2 h3 h4
  · norm_num
  · norm_num
  · norm_num
  · exact absurd h4 (by omega)
  · norm_num

/-- C5: no call to `process_interaction` ever writes a `core_memories` row —
for every database, verdict and failure pattern the table is unchanged.  The
insert at growth_manager.py line 72 evaluates `state['level']`, but the local
`state` is first assigned at line 79, so the block always raises
`UnboundLocalError`, which the inner `except` (line 74) swallows before the
`INSERT` is issued. -/
theorem core_memories_never_persisted :
    ∀ today uc db j fs,
      ((process_interaction today uc db j fs).1).core_memories = db.core_memories := by
  intro today uc db j fs
  unfold process_interaction
  dsimp only
  split_ifs <;> rfl

/-- C8: session-boundary rules of `should_start_new_session`: no prior
message always starts a session; on the same calendar day a 3h59m gap does
not and a gap of at least 4 hours does; a later calendar date always does,
whatever the gap. -/
theorem session_boundary_rules :
    (∀ now, should_start_new_session none now = true) ∧
    (∀ t now, t ≤ now → now / 86400 = t / 86400 → now - t = 4 * 3600 - 60 →
        should_start_new_session (some t) now = false) ∧
    (∀ t now, t ≤ now → 4 * 3600 ≤ now - t →
        should_start_new_session (some t) now = true) ∧
    (∀ t now, t ≤ now → t / 86400 < now / 86400 →
        should_start_new_session (some t) now = true) := by
  refine ⟨fun now => rfl, ?_, ?_, ?_⟩
  · intro t now hle hday hgap
    simp only [should_start_new_session]
    rw [if_neg (by omega), if_neg (by omega)]
  · intro t now hle hgap
    simp only [should_start_new_session]
    split_ifs with hday
    · rfl
    · rfl
  · intro t now hle hday
    simp only [should_start_new_session]
    rw [if_pos hday]

/-- Witness for C8: instances at concrete clocks — `t = 0` with
`now = 14340 s` (same day, 3h59m) does not start a session, `now = 14400 s`
does, and a 60-second gap across midnight (`t = 86370`, `now = 86430`)
does. -/
theorem session_boundary_witness :
    should_start_new_session none 5 = true ∧
    should_start_new_session (some 0) 14340 = false ∧
    should_start_new_session (some 0) 14400 = true ∧
    should_start_new_session (some 86370) 86430 = true := by
  refine ⟨session_boundary_rules.1 5, ?_, ?_, ?_⟩
  · exact session_boundary_rules.2.1 0 14340 (by norm_num) (by norm_num) (by norm_num)
  · exact session_boundary_rules.2.2.1 0 14400 (by norm_num) (by norm_num)
  · exact session_boundary_rules.2.2.2 86370 86430 (by norm_num) (by norm_num)

/-- The Bool row predicate of the decay `UPDATE` agrees with the claim's
condition stated propositionally. -/
theorem decayMatch_eq_true_iff (now : Nat) (r : EpisodicRow) :
    decayMatch now r = true ↔
      ((∃ t, r.last_accessed = some t ∧ t + 7 * 86400 < now) ∧
        1 < r.importance ∧ r.importance ≤ 8 ∧
        r.decay_locked = false ∧ r.is_core = false) := by
  unfold decayMatch
  cases hla : r.last_accessed with
  | none => simp [hla]
  | some t =>
    simp only [hla, Bool.and_eq_true, decide_eq_true_eq, Bool.not_eq_true',
      Option.some.injEq, and_assoc]
    constructor
    · rintro ⟨h1, h2, h3, h4, h5⟩
      exact ⟨⟨t, rfl, h1⟩, h2, h3, h4, h5⟩
    · rintro ⟨⟨t', ht', h1⟩, h2, h3, h4, h5⟩
      cases ht'
      exact ⟨h1, h2, h3, h4, h5⟩

/-- C4: one decay cycle decrements `importance` by exactly 1 for precisely
the rows whose `last_accessed` is older than 7 days with
`1 < importance ≤ 8`, neither `decay_locked` nor core; every other row — in
particular every `is_core` row — is returned unchanged. -/
theorem decayCycle_exact_rows (now : Nat) (store : List EpisodicRow) (i : Nat)
    (r : EpisodicRow) (h : store.get? i = some r) :
    ∃ r', (run_decay_cycle now store).get? i = some r' ∧
      (((∃ t, r.last_accessed = some t ∧ t + 7 * 86400 < now) ∧
          1 < r.importance ∧ r.importance ≤ 8 ∧
          r.decay_locked = false ∧ r.is_core = false) →
        r' = { r with importance := r.importance - 1 }) ∧
      (¬ ((∃ t, r.last_accessed = some t ∧ t + 7 * 86400 < now) ∧
          1 < r.importance ∧ r.importance ≤ 8 ∧
          r.decay_locked = false ∧ r.is_core = false) →
        r' = r) ∧
      (r.is_core = true → r'.importance = r.importance) := by
  refine ⟨if decayMatch now r then { r with importance := r.importance - 1 } else r,
    ?_, ?_, ?_, ?_⟩
  · rw [run_decay_cycle, List.get?_map, h]
    rfl
  · intro hc
    rw [if_pos ((decayMatch_eq_true_iff now r).mpr hc)]
  · intro hc
    rw [if_neg (fun hb => hc ((decayMatch_eq_true_iff now r).mp hb))]
  · intro hcore
    have hb : decayMatch now r = false := by
      rcases hb : decayMatch now r with _ | _
      · rfl
      · rcases (decayMatch_eq_true_iff now r).mp hb with ⟨_, _, _, _, h5⟩
        rw [hcore] at h5
        cases h5
    rw [if_neg (by simp [hb])]

/-- Witness for C4: in a two-row store, the stale medium-importance row drops
from importance 5 to 4 while the core row keeps importance 9. -/
theorem decayCycle_witness :
    (run_decay_cycle 700000
        [⟨1, "m", 5, "joy", false, 0, some 10, 0, false⟩,
         ⟨3, "core event", 9, "calm", true, 0, some 10, 2, false⟩]).get? 0
      = some ⟨1, "m", 4, "joy", false, 0, some 10, 0, false⟩ ∧
    (run_decay_cycle 700000
        [⟨1, "m", 5, "joy", false, 0, some 10, 0, false⟩,
         ⟨3, "core event", 9, "calm", true, 0, some 10, 2, false⟩]).get? 1
      = some ⟨3, "core event", 9, "calm", true, 0, some 10, 2, false⟩ := by
  constructor
  · obtain ⟨r', hg, hdec, _, _⟩ := decayCycle_exact_rows 700000
      [⟨1, "m", 5, "joy", false, 0, some 10, 0, false⟩,
       ⟨3, "core event", 9, "calm", true, 0, some 10, 2, false⟩] 0
      ⟨1, "m", 5, "joy", false, 0, some 10, 0, false⟩ rfl
    rw [hg, hdec ⟨⟨10, rfl, by norm_num⟩, by norm_num, by norm_num, rfl, rfl⟩]
    rfl
  · obtain ⟨r', hg, _, hkeep, _⟩ := decayCycle_exact_rows 700000
      [⟨1, "m", 5, "joy", false, 0, some 10, 0, false⟩,
       ⟨3, "core event", 9, "calm", true, 0, some 10, 2, false⟩] 1
      ⟨3, "core event", 9, "calm", true, 0, some 10, 2, false⟩ rfl
    rw [hg, hkeep (by rintro ⟨_, _, h8, _, _⟩; norm_num at h8)]

/-- C6, counterexample: `get_memories_by_context` returns a stored row's
content but leaves the store — and hence that row's `last_accessed = NULL`
and `access_count = 0` — completely unchanged: no reinforcement happens on
retrieval. -/
theorem retrieval_counterexample :
    (get_memories_by_context_st
        [⟨1, "hello world memory", 5, "joy", false, 0, none, 0, false⟩]
        "hello" 5).1.head? = some "hello world memory" ∧
    (get_memories_by_context_st
        [⟨1, "hello world memory", 5, "joy", false, 0, none, 0, false⟩]
        "hello" 5).2
      = [⟨1, "hello world memory", 5, "joy", false, 0, none, 0, false⟩] ∧
    (⟨1, "hello world memory", 5, "joy", false, 0, none, 0, false⟩ :
        EpisodicRow).access_count = 0 ∧
    (⟨1, "hello world memory", 5, "joy", false, 0, none, 0, false⟩ :
        EpisodicRow).last_accessed = none := by
  refine ⟨by decide, rfl, rfl, rfl⟩

/-- C6, amended: retrieval has no side effect — the store after
`get_memories_by_context` is the store before it (the method only issues
`SELECT`s; `reinforce_memory` is never called from the retrieval path).
`reinforce_memory` itself, when invoked directly, updates exactly the
addressed row: `last_accessed = now`, `importance = min(importance+1, 10)`,
`access_count + 1`. -/
theorem retrieval_no_reinforcement :
    (∀ store q limit, (get_memories_by_context_st store q limit).2 = store) ∧
    (∀ now mem_id store i r, store.get? i = some r →
      ∃ r', (reinforce_memory now mem_id store).get? i = some r' ∧
        (r.id = mem_id →
          r' = { r with last_accessed := some now,
                        importance := min (r.importance + 1) 10,
                        access_count := r.access_count + 1 }) ∧
        (r.id ≠ mem_id → r' = r)) := by
  constructor
  · intro store q limit
    rfl
  · intro now mem_id store i r h
    refine ⟨if r.id = mem_id then
        { r with last_accessed := some now,
                 importance := min (r.importance + 1) 10,
                 access_count := r.access_count + 1 }
      else r, ?_, ?_, ?_⟩
    · rw [reinforce_memory, List.get?_map, h]
      rfl
    · intro hid
      rw [if_pos hid]
    · intro hid
      rw [if_neg hid]

/-- Witness for C6 (amended): concrete instances — a retrieval leaves a
one-row store intact, and a direct `reinforce_memory` call bumps the
addressed row while leaving the other row alone. -/
theorem retrieval_no_reinforcement_witness :
    (get_memories_by_context_st
        [⟨1, "alpha day", 5, "joy", false, 0, none, 0, false⟩] "alpha" 5).2
      = [⟨1, "alpha day", 5, "joy", false, 0, none, 0, false⟩] ∧
    (reinforce_memory 777 1
        [⟨1, "alpha day", 5, "joy", false, 0, none, 0, false⟩,
         ⟨2, "beta day", 7, "joy", false, 0, none, 3, false⟩]).get? 0
      = some ⟨1, "alpha day", 6, "joy", false, 0, some 777, 1, false⟩ ∧
    (reinforce_memory 777 1
        [⟨1, "alpha day", 5, "joy", false, 0, none, 0, false⟩,
         ⟨2, "beta day", 7, "joy", false, 0, none, 3, false⟩]).get? 1
      = some ⟨2, "beta day", 7, "joy", false, 0, none, 3, false⟩ := by
  refine ⟨retrieval_no_reinforcement.1 _ "alpha" 5, ?_, ?_⟩
  · obtain ⟨r', hg, hyes, _⟩ := retrieval_no_reinforcement.2 777 1
      [⟨1, "alpha day", 5, "joy", false, 0, none, 0, false⟩,
       ⟨2, "beta day", 7, "joy", false, 0, none, 3, false⟩] 0
      ⟨1, "alpha day", 5, "joy", false, 0, none, 0, false⟩ rfl
    rw [hg, hyes rfl]
    rfl
  · obtain ⟨r', hg, _, hno⟩ := retrieval_no_reinforcement.2 777 1
      [⟨1, "alpha day", 5, "joy", false, 0, none, 0, false⟩,
       ⟨2, "beta day", 7, "joy", false, 0, none, 3, false⟩] 1
      ⟨2, "beta day", 7, "joy", false, 0, none, 3, false⟩ rfl
    rw [hg, hno (by norm_num)]

/-- Inserting one element grows a list's length by one. -/
theorem length_insertLe {α : Type} (le : α → α → Bool) (x : α) (l : List α) :
    (insertLe le x l).length = l.length + 1 := by
  induction l with
  | nil => rfl
  | cons y ys ih =>
    unfold insertLe
    split_ifs
    · rfl
    · simp [ih]

/-- The sort behind `ORDER BY` preserves length. -/
theorem length_sortLe {α : Type} (le : α → α → Bool) (l : List α) :
    (sortLe le l).length = l.length := by
  induction l with
  | nil => rfl
  | cons x xs ih =>
    unfold sortLe
    rw [length_insertLe, ih]
    rfl

/-- C7, counterexample: with three stored rows, two of which match the query
`"match"`, and `limit = 3`, `get_memories_by_context` returns only 2 items —
a match count of 2 skips the backfill (`len(rows) < 2` fails), so the length
is not `min(limit, stored) = 3`. -/
theorem contextRetrieval_length_counterexample :
    (get_memories_by_context
        [⟨1, "alpha match one", 5, "joy", false, 0, none, 0, false⟩,
         ⟨2, "beta match two", 7, "joy", false, 0, none, 0, false⟩,
         ⟨3, "gamma other", 9, "calm", true, 0, some 100, 2, false⟩]
        "match" 3).length = 2 ∧
    min 3 (List.length
        [(⟨1, "alpha match one", 5, "joy", false, 0, none, 0, false⟩ : EpisodicRow),
         ⟨2, "beta match two", 7, "joy", false, 0, none, 0, false⟩,
         ⟨3, "gamma other", 9, "calm", true, 0, some 100, 2, false⟩]) = 3 ∧
    (2 : Nat) ≠ 3 := by
  refine ⟨by decide, by decide, by decide⟩

/-- C7, amended: a query with no keywords, or whose keywords match no row,
returns exactly `get_important_memories(limit)`; a single match is returned
first, followed by the `limit - 1` top important memories (which may
duplicate the match); the returned length is `min(limit, stored)` for the
no-match cases, but with at least 2 matches the backfill is skipped and the
length is `min(limit, matches)`, which can fall short of
`min(limit, stored)`. -/
theorem contextRetrieval_policy :
    (∀ store q limit, keywordsOf q = [] →
        get_memories_by_context store q limit = get_important_memories store limit) ∧
    (∀ store q limit, store.filter (matchesAnyKeyword (keywordsOf q)) = [] →
        get_memories_by_context store q limit = get_important_memories store limit) ∧
    (∀ store q limit r, keywordsOf q ≠ [] → 1 ≤ limit →
        store.filter (matchesAnyKeyword (keywordsOf q)) = [r] →
        get_memories_by_context store q limit
          = r.content :: get_important_memories store (limit - 1)) ∧
    (∀ store limit,
        (get_important_memories store limit).length = min limit store.length) ∧
    (∀ store q limit, keywordsOf q ≠ [] →
        2 ≤ min limit (store.filter (matchesAnyKeyword (keywordsOf q))).length →
        (get_memories_by_context store q limit).length
          = min limit (store.filter (matchesAnyKeyword (keywordsOf q))).length) := by
  have himp : ∀ (store : List EpisodicRow) (limit : Nat),
      (get_important_memories store limit).length = min limit store.length := by
    intro store limit
    unfold get_important_memories
    rw [List.length_map, List.length_take, length_sortLe]
  refine ⟨?_, ?_, ?_, himp, ?_⟩
  · intro store q limit h
    unfold get_memories_by_context
    rw [if_pos h]
  · intro store q limit h
    unfold get_memories_by_context
    by_cases hk : keywordsOf q = []
    · rw [if_pos hk]
    · rw [if_neg hk]
      simp only [h, sortLe, List.take_nil, List.map_nil, List.length_nil,
        Nat.sub_zero, List.nil_append, if_pos (by norm_num : (0 : Nat) < 2)]
  · intro store q limit r hk hlim h
    unfold get_memories_by_context
    rw [if_neg hk, h]
    obtain ⟨n, rfl⟩ : ∃ n, limit = n + 1 := ⟨limit - 1, by omega⟩
    simp only [sortLe, insertLe, List.take_succ_cons, List.take_nil,
      List.map_cons, List.map_nil, List.length_cons, List.length_nil,
      if_pos (by norm_num : (1 : Nat) < 2), List.cons_append, List.nil_append,
      Nat.add_sub_cancel]
  · intro store q limit hk h2
    unfold get_memories_by_context
    rw [if_neg hk]
    have hlen : (((sortLe contextOrder
        (store.filter (matchesAnyKeyword (keywordsOf q)))).take limit).map
          (·.content)).length
        = min limit (store.filter (matchesAnyKeyword (keywordsOf q))).length := by
      rw [List.length_map, List.length_take, length_sortLe]
    simp only [hlen, if_neg (by omega : ¬ min limit
      (store.filter (matchesAnyKeyword (keywordsOf q))).length < 2)]

/-- Witness for C7 (amended): concrete instances of each conditional part —
a short-word query, a no-match query, a single-match query with backfill,
and a two-match query whose result stops at 2 items. -/
theorem contextRetrieval_policy_witness :
    get_memories_by_context
        [⟨1, "alpha match one", 5, "joy", false, 0, none, 0, false⟩,
         ⟨2, "gamma other", 9, "calm", true, 0, some 100, 2, false⟩] "a bb" 2
      = get_important_memories
        [⟨1, "alpha match one", 5, "joy", false, 0, none, 0, false⟩,
         ⟨2, "gamma other", 9, "calm", true, 0, some 100, 2, false⟩] 2 ∧
    get_memories_by_context
        [⟨1, "alpha match one", 5, "joy", false, 0, none, 0, false⟩,
         ⟨2, "gamma other", 9, "calm", true, 0, some 100, 2, false⟩] "zzzz" 2
      = get_important_memories
        [⟨1, "alpha match one", 5, "joy", false, 0, none, 0, false⟩,
         ⟨2, "gamma other", 9, "calm", true, 0, some 100, 2, false⟩] 2 ∧
    get_memories_by_context
        [⟨1, "alpha match one", 5, "joy", false, 0, none, 0, false⟩,
         ⟨2, "gamma other", 9, "calm", true, 0, some 100, 2, false⟩] "match" 3
      = "alpha match one" :: get_important_memories
        [⟨1, "alpha match one", 5, "joy", false, 0, none, 0, false⟩,
         ⟨2, "gamma other", 9, "calm", true, 0, some 100, 2, false⟩] 2 ∧
    (get_memories_by_context
        [⟨1, "alpha match one", 5, "joy", false, 0, none, 0, false⟩,
         ⟨2, "beta match two", 7, "joy", false, 0, none, 0, false⟩,
         ⟨3, "gamma other", 9, "calm", true, 0, some 100, 2, false⟩]
        "match" 3).length
      = min 3 (List.length ([⟨1, "alpha match one", 5, "joy", false, 0, none, 0, false⟩,
         ⟨2, "beta match two", 7, "joy", false, 0, none, 0, false⟩,
         ⟨3, "gamma other", 9, "calm", true, 0, some 100, 2, false⟩].filter
           (matchesAnyKeyword (keywordsOf "match")))) := by
  refine ⟨contextRetrieval_policy.1 _ "a bb" 2 (by decide),
    contextRetrieval_policy.2.1 _ "zzzz" 2 (by decide),
    ?_, ?_⟩
  · have h := contextRetrieval_policy.2.2.1
      [⟨1, "alpha match one", 5, "joy", false, 0, none, 0, false⟩,
       ⟨2, "gamma other", 9, "calm", true, 0, some 100, 2, false⟩] "match" 3
      ⟨1, "alpha match one", 5, "joy", false, 0, none, 0, false⟩
      (by decide) (by decide) (by decide)
    exact h
  · exact contextRetrieval_policy.2.2.2.2 _ "match" 3 (by decide) (by decide)

/-- With no storage failure, `process_interaction` reduces to: bump the day
counter, compute the level-up decision on the post-bump state, commit, and
return the full result dict (the core-memory block never contributes — its
insert raises before executing and is swallowed). -/
theorem processInteraction_noFail (today : Nat) (uc : String) (db : GrowthDB)
    (j : Judgment) :
    process_interaction today uc db j noFail =
      (let state := updateDaysActive today db.rel
       let new_xp := max 0 (state.current_xp + j.xp_change)
       let xp_needed : Int := xpForNextLevel state.level
       let lvl_res :=
         if xp_needed ≤ new_xp then
           if timeGates (state.level + 1) ≤ state.days_active then
             (state.level + 1, true, new_xp - xp_needed)
           else (state.level, false, new_xp)
         else (state.level, false, new_xp)
       ({ rel := { state with
            current_xp := lvl_res.2.2,
            total_xp := state.total_xp + max 0 j.xp_change,
            trust_score := clamp01 (state.trust_score + trustDelta j.xp_change),
            level := lvl_res.1 },
          core_memories := db.core_memories },
        some ⟨j.xp_change, lvl_res.2.1, lvl_res.1, j.sentiment,
          trustDelta j.xp_change⟩)) := by
  unfold process_interaction
  simp only [noFail, Bool.false_eq_true, if_false, and_false, ite_self]

/-- Every single call leaves `total_xp` no smaller, whatever the verdict and
whatever fails. -/
theorem totalXp_le_step (today : Nat) (uc : String) (db : GrowthDB)
    (j : Judgment) (fs : FailSpec) :
    db.rel.total_xp ≤ ((process_interaction today uc db j fs).1).rel.total_xp := by
  have hupd : (updateDaysActive today db.rel).total_xp = db.rel.total_xp := by
    unfold updateDaysActive
    split_ifs <;> rfl
  unfold process_interaction
  dsimp only
  split_ifs <;>
    simp only [ite_self, hupd, le_refl] <;>
    exact le_add_of_nonneg_right (le_max_left 0 _)

/-- C10: `total_xp` is monotonically nondecreasing — a committed call adds
exactly `max(0, xp_change)` (growth_manager.py line 81), so a negative
verdict can lower `current_xp` but never `total_xp`, and across any sequence
of calls, failures included, `total_xp` never decreases. -/
theorem totalXp_monotone :
    (∀ today uc db j,
        ((process_interaction today uc db j noFail).1).rel.total_xp
          = db.rel.total_xp + max 0 j.xp_change) ∧
    (∀ today uc l db,
        db.rel.total_xp ≤ (runInteractions today uc l db).rel.total_xp) := by
  constructor
  · intro today uc db j
    have hupd : (updateDaysActive today db.rel).total_xp = db.rel.total_xp := by
      unfold updateDaysActive
      split_ifs <;> rfl
    rw [processInteraction_noFail]
    dsimp only
    rw [hupd]
  · intro today uc l db
    induction l generalizing db with
    | nil => exact le_refl _
    | cons jf rest ih =>
      exact le_trans (totalXp_le_step today uc db jf.1 jf.2) (ih _)

/-- C2: with `level = 2` and post-interaction XP reaching 300 (threshold for
level 3 is `int(100 * 1.5) = 150`, time gate 1 day), a call with
`days_active = 0` does not level up and both level and the stored
`current_xp = 300` are unchanged (XP is not consumed), while
`days_active ≥ 1` levels up to 3 and carries the excess over:
`current_xp = 300 - 150 = 150`. -/
theorem levelUp_xp_and_time_gate (today : Nat) (uc : String) (db : GrowthDB)
    (j : Judgment) (hdate : today ≤ db.rel.last_interaction_date)
    (hlvl : db.rel.level = 2)
    (hxp : max 0 (db.rel.current_xp + j.xp_change) = 300) :
    (db.rel.days_active = 0 →
      (process_interaction today uc db j noFail).2
          = some ⟨j.xp_change, false, 2, j.sentiment, trustDelta j.xp_change⟩ ∧
      ((process_interaction today uc db j noFail).1).rel.level = 2 ∧
      ((process_interaction today uc db j noFail).1).rel.current_xp = 300) ∧
    (1 ≤ db.rel.days_active →
      (process_interaction today uc db j noFail).2
          = some ⟨j.xp_change, true, 3, j.sentiment, trustDelta j.xp_change⟩ ∧
      ((process_interaction today uc db j noFail).1).rel.level = 3 ∧
      ((process_interaction today uc db j noFail).1).rel.current_xp = 150) := by
  have hupd : updateDaysActive today db.rel = db.rel := by
    unfold updateDaysActive
    rw [if_neg (by omega)]
  have hneed : (xpForNextLevel 2 : Int) = 150 := by norm_num [xpForNextLevel]
  constructor
  · intro hda
    rw [processInteraction_noFail]
    dsimp only
    rw [hupd, hxp, hlvl, hneed, if_pos (by norm_num : (150 : Int) ≤ 300),
      if_neg (by rw [hda]; norm_num [timeGates])]
    exact ⟨rfl, rfl, rfl⟩
  · intro hda
    rw [processInteraction_noFail]
    dsimp only
    rw [hupd, hxp, hlvl, hneed, if_pos (by norm_num : (150 : Int) ≤ 300),
      if_pos (by simpa [timeGates] using hda)]
    refine ⟨rfl, rfl, ?_⟩
    norm_num

/-- Witness for C2: the concrete state `(level=2, current_xp=300,
days_active=0)` is gated (result keeps level 2 and XP 300), and the same
state with `days_active = 2` levels up to 3 with `current_xp = 150`. -/
theorem levelUp_xp_and_time_gate_witness :
    ((process_interaction 10 "hi"
        ⟨⟨2, 300, 500, 1/2, 0, 10⟩, []⟩ ⟨0, "Neutral", false, "m", "r"⟩ noFail).2
      = some ⟨0, false, 2, "Neutral", trustDelta 0⟩ ∧
     ((process_interaction 10 "hi"
        ⟨⟨2, 300, 500, 1/2, 0, 10⟩, []⟩ ⟨0, "Neutral", false, "m", "r"⟩ noFail).1).rel.level = 2 ∧
     ((process_interaction 10 "hi"
        ⟨⟨2, 300, 500, 1/2, 0, 10⟩, []⟩ ⟨0, "Neutral", false, "m", "r"⟩ noFail).1).rel.current_xp = 300) ∧
    ((process_interaction 10 "hi"
        ⟨⟨2, 300, 500, 1/2, 2, 10⟩, []⟩ ⟨0, "Neutral", false, "m", "r"⟩ noFail).2
      = some ⟨0, true, 3, "Neutral", trustDelta 0⟩ ∧
     ((process_interaction 10 "hi"
        ⟨⟨2, 300, 500, 1/2, 2, 10⟩, []⟩ ⟨0, "Neutral", false, "m", "r"⟩ noFail).1).rel.level = 3 ∧
     ((process_interaction 10 "hi"
        ⟨⟨2, 300, 500, 1/2, 2, 10⟩, []⟩ ⟨0, "Neutral", false, "m", "r"⟩ noFail).1).rel.current_xp = 150) := by
  constructor
  · exact (levelUp_xp_and_time_gate 10 "hi" ⟨⟨2, 300, 500, 1/2, 0, 10⟩, []⟩
      ⟨0, "Neutral", false, "m", "r"⟩ (by norm_num) rfl (by norm_num)).1 rfl
  · exact (levelUp_xp_and_time_gate 10 "hi" ⟨⟨2, 300, 500, 1/2, 2, 10⟩, []⟩
      ⟨0, "Neutral", false, "m", "r"⟩ (by norm_num) rfl (by norm_num)).2 (by norm_num)

/-- C9, counterexample: a core-memory verdict makes the insert block raise
(`UnboundLocalError`, swallowed by the inner handler) — an exception is
raised inside the call, yet `process_interaction` returns the full result
dict with every documented key, not `{}`. -/
theorem processInteraction_inner_exception_not_empty :
    coreInsertRaises ⟨3, "Positive", true, "milestone", "reason"⟩ = true ∧
    (process_interaction 10 "hi" ⟨⟨2, 300, 500, 1/2, 0, 10⟩, []⟩
        ⟨3, "Positive", true, "milestone", "reason"⟩ noFail).2
      = some ⟨3, false, 2, "Positive", 5 / 1000⟩ := by
  constructor
  · rfl
  · rw [processInteraction_noFail]
    norm_num [updateDaysActive, xpForNextLevel, timeGates, trustDelta]

/-- C9, amended: an exception that reaches `process_interaction`'s outer
handler — a storage failure reading `last_interaction_date`, bumping
`days_active`, reading the state, or committing the final update — makes the
method return `{}` (all documented result keys absent); exceptions inside
the core-memory block are caught by its inner handler and the call still
returns the full dict; in no case does an exception propagate. -/
theorem processInteraction_failure_returns_empty :
    (∀ today uc db j fs,
        fs.failDaysRead = true ∨ fs.failStateRead = true ∨
          fs.failFinalUpdate = true →
        (process_interaction today uc db j fs).2 = none) ∧
    (∀ today uc db j fs, fs.failDaysUpdate = true →
        db.rel.last_interaction_date < today →
        (process_interaction today uc db j fs).2 = none) ∧
    (∀ today uc db j,
        ((process_interaction today uc db j noFail).2).isSome = true) := by
  refine ⟨?_, ?_, ?_⟩
  · intro today uc db j fs h
    rcases h with h | h | h <;>
      (unfold process_interaction; dsimp only; split_ifs <;> rfl)
  · intro today uc db j fs h hlt
    unfold process_interaction
    dsimp only
    by_cases hfr : fs.failDaysRead = true
    · rw [if_pos hfr]
    · rw [if_neg hfr, if_pos ⟨hlt, h⟩]
  · intro today uc db j
    rw [processInteraction_noFail]
    rfl

/-- Witness for C9 (amended): each failure point at a concrete state — a
failing state read and a failing final update both yield `{}`, and the
no-failure run yields a populated dict. -/
theorem processInteraction_failure_witness :
    (process_interaction 10 "hi" ⟨⟨2, 300, 500, 1/2, 0, 10⟩, []⟩
        ⟨0, "Neutral", false, "m", "r"⟩ ⟨false, false, true, false⟩).2 = none ∧
    (process_interaction 10 "hi" ⟨⟨2, 300, 500, 1/2, 0, 10⟩, []⟩
        ⟨0, "Neutral", false, "m", "r"⟩ ⟨false, false, false, true⟩).2 = none ∧
    (process_interaction 12 "hi" ⟨⟨2, 300, 500, 1/2, 0, 10⟩, []⟩
        ⟨0, "Neutral", false, "m", "r"⟩ ⟨false, true, false, false⟩).2 = none ∧
    ((process_interaction 10 "hi" ⟨⟨2, 300, 500, 1/2, 0, 10⟩, []⟩
        ⟨0, "Neutral", false, "m", "r"⟩ noFail).2).isSome = true := by
  refine ⟨?_, ?_, ?_, ?_⟩
  · exact processInteraction_failure_returns_empty.1 10 "hi" _ _ _ (Or.inr (Or.inl rfl))
  · exact processInteraction_failure_returns_empty.1 10 "hi" _ _ _ (Or.inr (Or.inr rfl))
  · exact processInteraction_failure_returns_empty.2.1 12 "hi" _ _ _ rfl (by norm_num)
  · exact processInteraction_failure_returns_empty.2.2 10 "hi" _ _

end DangDang
